import Mathlib

/-!
Shallow embedding of `src/computation_engine.py` (repository `ksa_estate`):
the pro-forma computation engine.  Python floats are modelled as exact
rationals `ℚ`; JSON-like values (the Land Object, the Override Map, default
table entries) are modelled by the inductive type `Val`.  The engine's only
numeric partiality (an `IndexError` at `debt_repayment[-1] = bank_loan` when
`int(fund_period_years) < 1`, since the per-year arrays are then empty) is
modelled by an `Option` result.  The external root-finder
`numpy_financial.irr` is not part of the repository; the engine wraps it in
`try/except` and stores `None` on failure, so it is modelled as an arbitrary
`Option`-valued function passed as an argument (`irrFn`): every theorem below
holds for every such function.
-/

set_option maxRecDepth 10000
set_option maxHeartbeats 2000000

/-- JSON-like values: Python `None`, numbers (Python ints/floats as exact
rationals), strings, lists and dicts (association lists, first key wins,
mirroring Python dict lookup on unique keys). -/
inductive Val where
  | null : Val
  | num (q : ℚ) : Val
  | str (s : String) : Val
  | list (l : List Val) : Val
  | obj (o : List (String × Val)) : Val

/-- An Override Map / Land Object field list. -/
abbrev Ov := List (String × Val)

/-- Python `x is not None` test. -/
def Val.isNull : Val → Bool
  | Val.null => true
  | _ => false

/-- Numeric reading of a value: `float` of a number, and Python's
`x or 0` / default-to-zero coalescing for `None`.  Non-numeric values
(strings, lists, dicts) in numeric positions would raise in Python; the
spec's data model restricts override values to numbers or lists, and every
numeric parameter either has a numeric default or is coalesced, so those
cases are modelled as 0. -/
def Val.toNum : Val → ℚ
  | Val.num q => q
  | _ => 0

/-- Python `float(v or d)`: `None`, numeric `0` and other falsy values fall
back to the default `d` (used for `float(p("far") or 1.0)` and the
`float(p(...) or 0)` coalescing in the source). -/
def Val.orElse (v : Val) (d : ℚ) : ℚ :=
  match v with
  | Val.num q => if q = 0 then d else q
  | _ => d

/-- `np.array(v, dtype=float)` on a phasing parameter: a list of numbers.
Non-list values would raise in Python (0-d array has no `len`); modelled as
the empty vector. -/
def Val.toNumList : Val → List ℚ
  | Val.list l => l.map Val.toNum
  | _ => []

/-- Python dict `.get(k)`: `None` when the key is missing. -/
def dictGet (o : List (String × Val)) (k : String) : Val :=
  match o.find? (fun kv => kv.1 == k) with
  | some kv => kv.2
  | none => Val.null

/-- `k in d` for a Python dict modelled as an association list. -/
def dictHas (o : List (String × Val)) (k : String) : Bool :=
  (o.find? (fun kv => kv.1 == k)).isSome

/-- The `DEFAULTS` table of `computation_engine.py` (static default
assumptions). -/
def DEFAULTS : List (String × Val) := [
  ("infrastructure_cost_per_sqm", Val.num 500),
  ("superstructure_cost_per_sqm", Val.num 2500),
  ("parking_area_sqm", Val.num 0),
  ("parking_cost_per_sqm", Val.num 2000),
  ("efficiency_ratio", Val.num (85/100)),
  ("brokerage_fee_pct", Val.num (25/1000)),
  ("real_estate_transfer_tax_pct", Val.num (5/100)),
  ("brokerage_vat_pct", Val.num (15/100)),
  ("developer_fee_pct", Val.num (10/100)),
  ("other_indirect_pct", Val.num (6/100)),
  ("contingency_pct", Val.num (5/100)),
  ("presale_pct", Val.num 0),
  ("absorption_months", Val.num 12),
  ("bank_ltv_pct", Val.num (667/1000)),
  ("interest_rate_pct", Val.num (8/100)),
  ("arrangement_fee_pct", Val.num (2/100)),
  ("fund_period_years", Val.num 3),
  ("cash_purchase_pct", Val.num 1),
  ("in_kind_pct", Val.num 0),
  ("management_fee_pct", Val.num (15/1000)),
  ("custodian_fee_annual", Val.num 50000),
  ("board_fee_annual", Val.num 100000),
  ("sharia_certificate_fee", Val.num 5000),
  ("sharia_board_fee_annual", Val.num 5000),
  ("legal_counsel_fee", Val.num 50000),
  ("auditor_fee_annual", Val.num 50000),
  ("valuation_fee_quarterly", Val.num 20000),
  ("other_reserve_pct", Val.num (5/10000)),
  ("spv_formation_fee", Val.num 25000),
  ("structuring_fee_pct", Val.num (1/100)),
  ("operator_fee_pct", Val.num (15/10000)),
  ("land_phasing", Val.list [Val.num 1, Val.num 0, Val.num 0]),
  ("direct_cost_phasing", Val.list [Val.num (33/100), Val.num (45/100), Val.num (22/100)]),
  ("indirect_cost_phasing", Val.list [Val.num (33/100), Val.num (45/100), Val.num (22/100)]),
  ("revenue_phasing", Val.list [Val.num 0, Val.num 0, Val.num 1])]

/-- The `auto_map` table inside `_resolve`: parameter key to path into the
Land Object.  The source stores dotted strings (`"regulations.far"`) and
splits on `"."` at use; the split is precomputed here, component lists
being the same data. -/
def autoMap : List (String × List String) := [
  ("land_area_sqm", ["area_sqm"]),
  ("max_floors", ["regulations", "max_floors"]),
  ("far", ["regulations", "far"]),
  ("coverage_ratio", ["regulations", "coverage_ratio"]),
  ("allowed_uses", ["regulations", "allowed_uses"]),
  ("building_code", ["building_code_label"]),
  ("district", ["district_name"])]

/-- The dotted-path walk of `_resolve`: `obj = obj.get(part)` while `obj`
is a dict, else `None`; a missing intermediate key yields `None` on the
next step exactly as in the Python loop. -/
def walkPath : Val → List String → Val
  | v, [] => v
  | Val.obj o, part :: rest => walkPath (dictGet o part) rest
  | _, _ :: _ => Val.null

/-- `_resolve` fallback after the override stage: auto-mapping, then the
static default table, then `(None, "missing")`. -/
def resolveAuto (key : String) (land : Val) : Val × String :=
  match autoMap.find? (fun kv => kv.1 == key) with
  | some kv =>
    let v := walkPath land kv.2
    if v.isNull then
      match DEFAULTS.find? (fun dv => dv.1 == key) with
      | some dv => (dv.2, "default")
      | none => (Val.null, "missing")
    else (v, "auto")
  | none =>
    match DEFAULTS.find? (fun dv => dv.1 == key) with
    | some dv => (dv.2, "default")
    | none => (Val.null, "missing")

/-- `_resolve(key, land_object, overrides)`: priority
override (present and non-null) > auto-mapped Land Object value > static
default > `(None, "missing")`. -/
def resolveParam (key : String) (land : Val) (ov : Ov) : Val × String :=
  match ov.find? (fun kv => kv.1 == key) with
  | some kv => if kv.2.isNull then resolveAuto key land else (kv.2, "user")
  | none => resolveAuto key land

/-- The fixed list of resolved parameter keys (`param_keys` in
`compute_proforma`), 44 keys of which 4 are phasing vectors. -/
def paramKeys : List String := [
  "land_area_sqm", "land_price_per_sqm", "sale_price_per_sqm",
  "max_floors", "far", "coverage_ratio", "allowed_uses",
  "building_code", "district",
  "infrastructure_cost_per_sqm", "superstructure_cost_per_sqm",
  "parking_area_sqm", "parking_cost_per_sqm", "efficiency_ratio",
  "brokerage_fee_pct", "real_estate_transfer_tax_pct",
  "brokerage_vat_pct",
  "developer_fee_pct", "other_indirect_pct", "contingency_pct",
  "presale_pct", "absorption_months",
  "bank_ltv_pct", "interest_rate_pct", "arrangement_fee_pct",
  "fund_period_years", "cash_purchase_pct", "in_kind_pct",
  "management_fee_pct", "custodian_fee_annual", "board_fee_annual",
  "sharia_certificate_fee", "sharia_board_fee_annual",
  "legal_counsel_fee", "auditor_fee_annual",
  "valuation_fee_quarterly", "other_reserve_pct",
  "spv_formation_fee", "structuring_fee_pct", "operator_fee_pct",
  "land_phasing", "direct_cost_phasing", "indirect_cost_phasing",
  "revenue_phasing"]

/-- `p(key)` / `_get`: the resolved value of a parameter (the `params`
dict stores exactly `_resolve`'s output per key). -/
def pv (land : Val) (ov : Ov) (key : String) : Val :=
  (resolveParam key land ov).1

/-- `params[key]["source"]`. -/
def pSource (land : Val) (ov : Ov) (key : String) : String :=
  (resolveParam key land ov).2

/-! ### Vector helpers (numpy 1-d float arrays as `List ℚ`) -/

/-- Scalar × array broadcast. -/
def vscale (c : ℚ) (v : List ℚ) : List ℚ := v.map (fun x => c * x)

/-- Elementwise array addition. -/
def vadd (a b : List ℚ) : List ℚ := List.zipWith (fun x y => x + y) a b

/-- Elementwise array subtraction. -/
def vsub (a b : List ℚ) : List ℚ := List.zipWith (fun x y => x - y) a b

/-- `np.cumsum`. -/
def cumsum (v : List ℚ) : List ℚ := (v.scanl (fun a x => a + x) 0).tail

/-- `np.linspace(a, b, 5)` (exact: `a + (b - a) * i / 4`). -/
def linspace5 (a b : ℚ) : List ℚ :=
  (List.range 5).map (fun i => a + (b - a) * i / 4)

/-- Python `int()` truncation toward zero of a float. -/
def ratTrunc (q : ℚ) : ℤ := q.num / (q.den : ℤ)

namespace Engine

variable (L : Val) (O : Ov)

/-- `n_years = int(p("fund_period_years"))`. -/
def n_years : ℤ := ratTrunc (pv L O "fund_period_years").toNum

/-- The fund period as a natural number (the engine is only defined for
`n_years ≥ 1`; see `compute_proforma`). -/
def nn : ℕ := (n_years L O).toNat

/-- The pad/truncate step of `_phase`: `np.pad` with zeros when short,
slice `arr[:n]` when long. -/
def padTrunc (n : ℕ) (v : List ℚ) : List ℚ :=
  if v.length < n then v ++ List.replicate (n - v.length) 0 else v.take n

/-- `_phase(key)`: pad with zeros / truncate the phasing array to length
`n_years`, then divide by the sum when the sum is positive. -/
def phaseVec (n : ℕ) (v : List ℚ) : List ℚ :=
  let arr := padTrunc n v
  let s := arr.sum
  if s > 0 then arr.map (fun x => x / s) else arr

def land_ph : List ℚ := phaseVec (nn L O) (pv L O "land_phasing").toNumList
def direct_ph : List ℚ := phaseVec (nn L O) (pv L O "direct_cost_phasing").toNumList
def indirect_ph : List ℚ := phaseVec (nn L O) (pv L O "indirect_cost_phasing").toNumList
def revenue_ph : List ℚ := phaseVec (nn L O) (pv L O "revenue_phasing").toNumList

/-! ### 2. Land costs (in-kind aware) -/

def land_area : ℚ := (pv L O "land_area_sqm").orElse 0
def land_ppmsq : ℚ := (pv L O "land_price_per_sqm").orElse 0
def in_kind_pct : ℚ := (pv L O "in_kind_pct").orElse 0
def cash_pct : ℚ := 1 - in_kind_pct L O
def land_price_total : ℚ := land_area L O * land_ppmsq L O
def in_kind_value : ℚ := land_price_total L O * in_kind_pct L O

/-- Brokerage: always on the full land price. -/
def brokerage_fee : ℚ := (pv L O "brokerage_fee_pct").toNum * land_price_total L O
def brokerage_vat : ℚ := (pv L O "brokerage_vat_pct").toNum * brokerage_fee L O

/-- Transfer tax: zero when in-kind, full when cash purchase. -/
def transfer_tax : ℚ :=
  if in_kind_pct L O = 0 then
    (pv L O "real_estate_transfer_tax_pct").toNum * land_price_total L O
  else 0

def total_land : ℚ :=
  land_price_total L O + brokerage_fee L O + transfer_tax L O + brokerage_vat L O
def cash_land : ℚ := total_land L O - in_kind_value L O

/-! ### 3. Construction costs -/

def far_val : ℚ := (pv L O "far").orElse 1
def gba : ℚ := land_area L O * far_val L O
def sellable : ℚ := gba L O * (pv L O "efficiency_ratio").toNum
def infra_cost : ℚ := gba L O * (pv L O "infrastructure_cost_per_sqm").toNum
def super_cost : ℚ := gba L O * (pv L O "superstructure_cost_per_sqm").toNum
def parking_area : ℚ := (pv L O "parking_area_sqm").orElse 0
def parking_cost : ℚ := parking_area L O * (pv L O "parking_cost_per_sqm").toNum
def total_direct : ℚ := infra_cost L O + super_cost L O + parking_cost L O
def dev_fee : ℚ := (pv L O "developer_fee_pct").toNum * total_direct L O
def other_indirect : ℚ := (pv L O "other_indirect_pct").toNum * total_direct L O
def contingency : ℚ := (pv L O "contingency_pct").toNum * total_direct L O
def total_indirect : ℚ := dev_fee L O + other_indirect L O + contingency L O
def total_construction : ℚ := total_direct L O + total_indirect L O

/-! ### 4. Revenue -/

def sale_ppmsq : ℚ := (pv L O "sale_price_per_sqm").orElse 0
def gross_revenue : ℚ := sellable L O * sale_ppmsq L O

/-! ### 5. Financing (loan sizing) -/

def bank_loan : ℚ := (pv L O "bank_ltv_pct").toNum * land_price_total L O
def arrangement_fee : ℚ := (pv L O "arrangement_fee_pct").toNum * bank_loan L O

/-! ### 6. Fund fees (over the full fund period) -/

def total_cost_base : ℚ := total_land L O + total_construction L O
def mgmt_fee_total : ℚ := (pv L O "management_fee_pct").toNum * total_cost_base L O
def custodian_total : ℚ := (pv L O "custodian_fee_annual").toNum * (nn L O : ℚ)
def board_total : ℚ := (pv L O "board_fee_annual").toNum * (nn L O : ℚ)
def sharia_total : ℚ :=
  (pv L O "sharia_certificate_fee").toNum
    + (pv L O "sharia_board_fee_annual").toNum * (nn L O : ℚ)
def legal_total : ℚ := (pv L O "legal_counsel_fee").toNum
def auditor_total : ℚ := (pv L O "auditor_fee_annual").toNum * (nn L O : ℚ)
def valuation_total : ℚ := (pv L O "valuation_fee_quarterly").toNum * 4 * (nn L O : ℚ)
def reserve_total : ℚ := (pv L O "other_reserve_pct").toNum * total_cost_base L O
def spv_total : ℚ := (pv L O "spv_formation_fee").toNum
def operator_total : ℚ := (pv L O "operator_fee_pct").toNum * total_cost_base L O

/-- Structuring fee uses a first-pass equity estimate (circularity resolved
by a single pass, no iteration). -/
def pre_fees : ℚ := total_land L O + total_construction L O
def est_total_fund : ℚ :=
  pre_fees L O + bank_loan L O * (pv L O "interest_rate_pct").toNum * (nn L O : ℚ)
    + arrangement_fee L O
def est_equity : ℚ := est_total_fund L O - bank_loan L O - in_kind_value L O
def structuring_total : ℚ := (pv L O "structuring_fee_pct").toNum * est_equity L O

def total_fund_fees : ℚ :=
  mgmt_fee_total L O + custodian_total L O + board_total L O + sharia_total L O
    + legal_total L O + auditor_total L O + valuation_total L O + reserve_total L O
    + spv_total L O + structuring_total L O + operator_total L O

end Engine

namespace Engine

variable (L : Val) (O : Ov)

/-! ### 7. Total interest (year-by-year debt outstanding) -/

def cash_land_outflow : List ℚ :=
  vscale (total_land L O - in_kind_value L O) (land_ph L O)
def construction_yearly : List ℚ :=
  vadd (vscale (total_direct L O) (direct_ph L O))
       (vscale (total_indirect L O) (indirect_ph L O))
def total_cash_needs : List ℚ :=
  vadd (cash_land_outflow L O) (construction_yearly L O)

/-- `spend_share`: proportional to yearly cash needs, or uniform
`np.ones(n)/n` when the total need is zero. -/
def spend_share : List ℚ :=
  let t := total_cash_needs L O
  if t.sum > 0 then t.map (fun x => x / t.sum)
  else List.replicate (nn L O) (1 / (nn L O : ℚ))

def debt_drawdown : List ℚ := vscale (bank_loan L O) (spend_share L O)
def debt_outstanding : List ℚ := cumsum (debt_drawdown L O)
def interest_yearly : List ℚ :=
  vscale (pv L O "interest_rate_pct").toNum (debt_outstanding L O)
def total_interest : ℚ := (interest_yearly L O).sum

/-! ### 8. Fund size & capital structure -/

def total_fund_size : ℚ :=
  total_land L O + total_construction L O + total_fund_fees L O
    + total_interest L O + arrangement_fee L O
def equity_amount : ℚ := total_fund_size L O - bank_loan L O - in_kind_value L O
def equity_pct : ℚ :=
  if total_fund_size L O > 0 then equity_amount L O / total_fund_size L O else 0
def debt_pct : ℚ :=
  if total_fund_size L O > 0 then bank_loan L O / total_fund_size L O else 0

/-! ### 9. Cash flows (year-by-year) -/

def sales_cf : List ℚ := vscale (gross_revenue L O) (revenue_ph L O)
def land_cf : List ℚ := vscale (total_land L O) (land_ph L O)
def direct_cf : List ℚ := vscale (total_direct L O) (direct_ph L O)
def indirect_cf : List ℚ := vscale (total_indirect L O) (indirect_ph L O)
def cost_per_yr : List ℚ :=
  vadd (vadd (land_cf L O) (direct_cf L O)) (indirect_cf L O)
def mgmt_cf : List ℚ :=
  vscale (pv L O "management_fee_pct").toNum (cost_per_yr L O)

/-- `fixed_annual`: flat annual fees broadcast over the cost-proportional
reserve and operator components (an array in the source). -/
def fixed_annual : List ℚ :=
  (cost_per_yr L O).map (fun c =>
    (pv L O "custodian_fee_annual").toNum + (pv L O "board_fee_annual").toNum
      + (pv L O "sharia_board_fee_annual").toNum + (pv L O "auditor_fee_annual").toNum
      + (pv L O "valuation_fee_quarterly").toNum * 4
      + (pv L O "other_reserve_pct").toNum * c
      + (pv L O "operator_fee_pct").toNum * c)

/-- One-time fees, all booked in year 1. -/
def onetime : List ℚ :=
  (List.replicate (nn L O) (0 : ℚ)).set 0
    ((pv L O "sharia_certificate_fee").toNum + (pv L O "legal_counsel_fee").toNum
      + (pv L O "spv_formation_fee").toNum + structuring_total L O
      + arrangement_fee L O)

def total_outflows : List ℚ :=
  vadd (vadd (vadd (vadd (vadd (vadd (land_cf L O) (direct_cf L O))
    (indirect_cf L O)) (interest_yearly L O)) (mgmt_cf L O))
    (fixed_annual L O)) (onetime L O)

def net_cf : List ℚ := vsub (sales_cf L O) (total_outflows L O)
def cumulative : List ℚ := cumsum (net_cf L O)

/-! ### Equity cash-flow vector for IRR -/

def total_equity_invested : ℚ := equity_amount L O + in_kind_value L O

/-- Terminal surplus: all sources in, all uses out, debt repaid. -/
def total_surplus : ℚ :=
  total_equity_invested L O + bank_loan L O + gross_revenue L O
    - (total_outflows L O).sum - bank_loan L O

/-- `equity_cf_for_irr = np.zeros(n+1)`; `[0] = -total_equity_invested`;
`[-1] = total_surplus`. -/
def equity_cf_for_irr : List ℚ :=
  (((List.replicate (nn L O + 1) (0 : ℚ)).set 0
      (-(total_equity_invested L O))).set (nn L O) (total_surplus L O))

/-! ### 10. KPIs -/

def equity_profit : ℚ := (equity_cf_for_irr L O).sum
def roe_total : ℚ :=
  if total_equity_invested L O > 0 then equity_profit L O / total_equity_invested L O
  else 0
def roe_annual : ℚ := if 0 < nn L O then roe_total L O / (nn L O : ℚ) else 0
def profit_margin : ℚ :=
  if gross_revenue L O > 0 then equity_profit L O / gross_revenue L O else 0
def cost_rev_ratio : ℚ :=
  if gross_revenue L O > 0 then total_fund_size L O / gross_revenue L O else 0
def yield_on_cost : ℚ :=
  if total_fund_size L O > 0 then gross_revenue L O / total_fund_size L O else 0

/-! ### 11. Sensitivity analysis (5×5: sale price vs construction cost) -/

def base_sale : ℚ := if sale_ppmsq L O > 0 then sale_ppmsq L O else 10000
def base_infra : ℚ := (pv L O "infrastructure_cost_per_sqm").toNum
def base_super : ℚ := (pv L O "superstructure_cost_per_sqm").toNum
def base_cost : ℚ := base_infra L O + base_super L O
def sale_range : List ℚ := linspace5 (base_sale L O * (8/10)) (base_sale L O * (12/10))
def cost_mult : List ℚ := linspace5 (8/10) (12/10)

/-- One sensitivity cell: the lightweight re-calculation at sale price `sp`
and cost multiplier `cm`, ending in an IRR solve; the whole cell is wrapped
in `try/except` in the source, and only the root-finder can fail there, so
the cell value is `irrFn` of the adjusted equity cash-flow vector. -/
def sensitivityCell (irrFn : List ℚ → Option ℚ) (sp cm : ℚ) : Option ℚ :=
  let adj_infra := base_infra L O * cm
  let adj_super := base_super L O * cm
  let adj_direct := gba L O * (adj_infra + adj_super) + parking_cost L O
  let adj_indirect := adj_direct
    * ((pv L O "developer_fee_pct").toNum + (pv L O "other_indirect_pct").toNum
        + (pv L O "contingency_pct").toNum)
  let adj_constr := adj_direct + adj_indirect
  let adj_revenue := sellable L O * sp
  let adj_fund := total_land L O + adj_constr + total_fund_fees L O
    + total_interest L O + arrangement_fee L O
  let adj_equity := adj_fund - bank_loan L O - in_kind_value L O
  let adj_outflows :=
    vadd (vadd (vadd (vadd (vscale (total_land L O) (land_ph L O))
      (vscale adj_direct (direct_ph L O)))
      (vscale adj_indirect (indirect_ph L O)))
      (interest_yearly L O))
      (vadd (vadd (mgmt_cf L O) (fixed_annual L O)) (onetime L O))
  let adj_total_invested := adj_equity + in_kind_value L O
  let adj_surplus := adj_total_invested + bank_loan L O + adj_revenue
    - adj_outflows.sum - bank_loan L O
  let adj_eq_irr := ((List.replicate (nn L O + 1) (0 : ℚ)).set 0
      (-adj_total_invested)).set (nn L O) adj_surplus
  irrFn adj_eq_irr

def sensitivity_irr (irrFn : List ℚ → Option ℚ) : List (List (Option ℚ)) :=
  (sale_range L O).map (fun sp =>
    cost_mult.map (fun cm => sensitivityCell L O irrFn sp cm))

/-! ### 12. Data health -/

def sourcesOf : List String := paramKeys.map (fun k => pSource L O k)
def auto_count : ℕ := ((sourcesOf L O).filter (fun s => s == "auto")).length
def user_count : ℕ := ((sourcesOf L O).filter (fun s => s == "user")).length
def default_count : ℕ := ((sourcesOf L O).filter (fun s => s == "default")).length
def missing_count : ℕ := ((sourcesOf L O).filter (fun s => s == "missing")).length
def total_params : ℕ := (sourcesOf L O).length
def confidence : ℚ :=
  if 0 < total_params L O then
    ((auto_count L O : ℚ) + (user_count L O : ℚ)) / (total_params L O : ℚ) * 100
  else 0

/-- Python `round(x, 1)`.  Python rounds half to even; over this engine's
confidence values `(auto+user)/44*100` a tie at the second decimal is
impossible (it would need `44 ∣ 2000·k` with odd quotient, which fails for
`0 ≤ k ≤ 44`), so rounding half up agrees with the source everywhere it is
applied. -/
def round1 (q : ℚ) : ℚ := (round (10 * q) : ℤ) / 10

def missing_fields : List String :=
  paramKeys.filter (fun k => pSource L O k == "missing")

end Engine

/-! ### The ProFormaResult record -/

structure LandCosts where
  land_price_total : ℚ
  brokerage_fee : ℚ
  transfer_tax : ℚ
  brokerage_vat : ℚ
  total_land_acquisition : ℚ
  cash_portion : ℚ
  in_kind_portion : ℚ
  in_kind_pct : ℚ

structure ConstructionCosts where
  gba_sqm : ℚ
  sellable_area_sqm : ℚ
  infrastructure_cost : ℚ
  superstructure_cost : ℚ
  parking_cost : ℚ
  total_direct_cost : ℚ
  developer_fee : ℚ
  other_indirect : ℚ
  contingency : ℚ
  total_indirect_cost : ℚ
  total_construction : ℚ

structure Revenue where
  sellable_area_sqm : ℚ
  sale_price_per_sqm : ℚ
  gross_revenue : ℚ
  net_revenue : ℚ

structure Financing where
  bank_loan_amount : ℚ
  interest_rate_pct : ℚ
  arrangement_fee : ℚ
  total_interest : ℚ
  interest_yearly : List ℚ

structure FundFees where
  management_fee : ℚ
  custodian_fee : ℚ
  board_fee : ℚ
  sharia_fees : ℚ
  legal_counsel : ℚ
  auditor_fee : ℚ
  valuation_fee : ℚ
  other_reserve : ℚ
  spv_fee : ℚ
  structuring_fee : ℚ
  operator_fee : ℚ
  total_fund_fees : ℚ

structure FundSize where
  total_fund_size : ℚ
  equity_amount : ℚ
  in_kind_contribution : ℚ
  bank_loan : ℚ
  equity_pct : ℚ
  debt_pct : ℚ

/-- Cash-flow section.  The `beginning_cash` / `net_cash_waterfall` display
fields (the year-by-year waterfall loop) and the dead local `cost_share`
of the source are not referenced by any claim and are omitted. -/
structure CashFlows where
  years : List ℕ
  inflows_sales : List ℚ
  outflows_land : List ℚ
  outflows_direct : List ℚ
  outflows_indirect : List ℚ
  outflows_interest : List ℚ
  outflows_fees : List ℚ
  outflows_total : List ℚ
  net_cash_flow : List ℚ
  cumulative : List ℚ
  net_equity_cashflows : List ℚ
  equity_cf_for_irr : List ℚ

structure Kpis where
  irr : Option ℚ
  equity_net_profit : ℚ
  roe_total : ℚ
  roe_annualized : ℚ
  profit_margin : ℚ
  cost_to_revenue_ratio : ℚ
  yield_on_cost : ℚ

structure Sensitivity where
  sale_price_range : List ℚ
  construction_cost_range : List ℚ
  irr_matrix : List (List (Option ℚ))

structure DataHealth where
  auto : ℕ
  user : ℕ
  default : ℕ
  missing : ℕ
  total_params : ℕ
  confidence_pct : ℚ
  missing_fields : List String

structure ProFormaResult where
  inputs_used : List (String × (Val × String))
  land_costs : LandCosts
  construction_costs : ConstructionCosts
  revenue : Revenue
  financing : Financing
  fund_fees : FundFees
  fund_size : FundSize
  cash_flows : CashFlows
  kpis : Kpis
  sensitivity : Option Sensitivity
  data_health : DataHealth

namespace Engine

/-- The assembled result (the body of `compute_proforma` after input
resolution, for `n_years ≥ 1`).  `irrFn` stands for the
`try: float(npf.irr(...)) except: None` step: an `Option`-valued solver. -/
def computeCore (irrFn : List ℚ → Option ℚ) (L : Val) (O : Ov) : ProFormaResult :=
  { inputs_used :=
      (paramKeys.filter (fun k => !(k.endsWith "_phasing"))).map
        (fun k => (k, resolveParam k L O)),
    land_costs :=
      { land_price_total := land_price_total L O,
        brokerage_fee := brokerage_fee L O,
        transfer_tax := transfer_tax L O,
        brokerage_vat := brokerage_vat L O,
        total_land_acquisition := total_land L O,
        cash_portion := cash_land L O,
        in_kind_portion := in_kind_value L O,
        in_kind_pct := in_kind_pct L O },
    construction_costs :=
      { gba_sqm := gba L O,
        sellable_area_sqm := sellable L O,
        infrastructure_cost := infra_cost L O,
        superstructure_cost := super_cost L O,
        parking_cost := parking_cost L O,
        total_direct_cost := total_direct L O,
        developer_fee := dev_fee L O,
        other_indirect := other_indirect L O,
        contingency := contingency L O,
        total_indirect_cost := total_indirect L O,
        total_construction := total_construction L O },
    revenue :=
      { sellable_area_sqm := sellable L O,
        sale_price_per_sqm := sale_ppmsq L O,
        gross_revenue := gross_revenue L O,
        net_revenue := gross_revenue L O },
    financing :=
      { bank_loan_amount := bank_loan L O,
        interest_rate_pct := (pv L O "interest_rate_pct").toNum,
        arrangement_fee := arrangement_fee L O,
        total_interest := total_interest L O,
        interest_yearly := interest_yearly L O },
    fund_fees :=
      { management_fee := mgmt_fee_total L O,
        custodian_fee := custodian_total L O,
        board_fee := board_total L O,
        sharia_fees := sharia_total L O,
        legal_counsel := legal_total L O,
        auditor_fee := auditor_total L O,
        valuation_fee := valuation_total L O,
        other_reserve := reserve_total L O,
        spv_fee := spv_total L O,
        structuring_fee := structuring_total L O,
        operator_fee := operator_total L O,
        total_fund_fees := total_fund_fees L O },
    fund_size :=
      { total_fund_size := total_fund_size L O,
        equity_amount := equity_amount L O,
        in_kind_contribution := in_kind_value L O,
        bank_loan := bank_loan L O,
        equity_pct := equity_pct L O,
        debt_pct := debt_pct L O },
    cash_flows :=
      { years := (List.range (nn L O)).map (fun y => y + 1),
        inflows_sales := sales_cf L O,
        outflows_land := land_cf L O,
        outflows_direct := direct_cf L O,
        outflows_indirect := indirect_cf L O,
        outflows_interest := interest_yearly L O,
        outflows_fees := vadd (vadd (mgmt_cf L O) (fixed_annual L O)) (onetime L O),
        outflows_total := total_outflows L O,
        net_cash_flow := net_cf L O,
        cumulative := cumulative L O,
        net_equity_cashflows := equity_cf_for_irr L O,
        equity_cf_for_irr := equity_cf_for_irr L O },
    kpis :=
      { irr := irrFn (equity_cf_for_irr L O),
        equity_net_profit := equity_profit L O,
        roe_total := roe_total L O,
        roe_annualized := roe_annual L O,
        profit_margin := profit_margin L O,
        cost_to_revenue_ratio := cost_rev_ratio L O,
        yield_on_cost := yield_on_cost L O },
    sensitivity :=
      if dictHas O "_skip_sensitivity" then none
      else some
        { sale_price_range := sale_range L O,
          construction_cost_range := cost_mult.map (fun c => base_cost L O * c),
          irr_matrix := sensitivity_irr L O irrFn },
    data_health :=
      { auto := auto_count L O,
        user := user_count L O,
        default := default_count L O,
        missing := missing_count L O,
        total_params := total_params L O,
        confidence_pct := round1 (confidence L O),
        missing_fields := missing_fields L O } }

/-- `compute_proforma(land_object, user_overrides)`.  For
`int(fund_period_years) < 1` the Python source raises (`np.zeros(n)` for
negative `n`, or `IndexError` at `debt_repayment[-1]` on an empty array),
modelled as `none`; otherwise a full result is produced. -/
def compute_proforma (irrFn : List ℚ → Option ℚ) (L : Val) (O : Ov) :
    Option ProFormaResult :=
  if 1 ≤ n_years L O then some (computeCore irrFn L O) else none

end Engine

/-! ### Shared concrete inputs and helper lemmas -/

/-- An empty Land Object (`{}`). -/
def emptyLand : Val := Val.obj []

/-- An always-failing IRR solver (one admissible behaviour of the wrapped
`npf.irr` call). -/
def irrFail : List ℚ → Option ℚ := fun _ => none

namespace Engine

theorem compute_eq_some (f : List ℚ → Option ℚ) (L : Val) (O : Ov)
    (h : 1 ≤ n_years L O) :
    compute_proforma f L O = some (computeCore f L O) := by
  unfold compute_proforma
  rw [if_pos h]

theorem compute_inv (f : List ℚ → Option ℚ) (L : Val) (O : Ov)
    (res : ProFormaResult) (h : compute_proforma f L O = some res) :
    res = computeCore f L O := by
  unfold compute_proforma at h
  split at h
  · exact (Option.some.inj h).symm
  · exact absurd h (by simp)

end Engine

/-- C1.  For every Land Object and Override Map, the `total_fund_size`
field of the `fund_size` section returned by `compute_proforma` is exactly
the sum of `total_land_acquisition` (land costs), `total_construction`
(construction costs), `total_fund_fees` (fund fees), `total_interest` and
`arrangement_fee` (financing); and `equity_amount` is exactly
`total_fund_size - bank_loan - in_kind_value`. -/
theorem C1_fund_size_identity (f : List ℚ → Option ℚ) (L : Val) (O : Ov)
    (res : ProFormaResult) (h : Engine.compute_proforma f L O = some res) :
    res.fund_size.total_fund_size
        = res.land_costs.total_land_acquisition
          + res.construction_costs.total_construction
          + res.fund_fees.total_fund_fees
          + res.financing.total_interest
          + res.financing.arrangement_fee
      ∧ res.fund_size.equity_amount
        = res.fund_size.total_fund_size - res.fund_size.bank_loan
          - res.fund_size.in_kind_contribution := by
  rw [Engine.compute_inv f L O res h]
  exact ⟨rfl, rfl⟩

theorem C1_fund_size_identity_witness :
    (Engine.computeCore irrFail emptyLand []).fund_size.total_fund_size
        = (Engine.computeCore irrFail emptyLand []).land_costs.total_land_acquisition
          + (Engine.computeCore irrFail emptyLand []).construction_costs.total_construction
          + (Engine.computeCore irrFail emptyLand []).fund_fees.total_fund_fees
          + (Engine.computeCore irrFail emptyLand []).financing.total_interest
          + (Engine.computeCore irrFail emptyLand []).financing.arrangement_fee
      ∧ (Engine.computeCore irrFail emptyLand []).fund_size.equity_amount
        = (Engine.computeCore irrFail emptyLand []).fund_size.total_fund_size
          - (Engine.computeCore irrFail emptyLand []).fund_size.bank_loan
          - (Engine.computeCore irrFail emptyLand []).fund_size.in_kind_contribution :=
  C1_fund_size_identity irrFail emptyLand [] (Engine.computeCore irrFail emptyLand [])
    (Engine.compute_eq_some irrFail emptyLand [] (by decide))

/-- C2.  Whenever the resolved `in_kind_pct` is strictly positive, the
returned `transfer_tax` is 0; whenever it is exactly 0, `transfer_tax` is
exactly `transfer_tax_pct × land_price_total` (a hard conditional); and
`brokerage_fee` is always `brokerage_fee_pct × land_price_total`,
independent of the in-kind share. -/
theorem C2_in_kind_tax (f : List ℚ → Option ℚ) (L : Val) (O : Ov)
    (res : ProFormaResult) (h : Engine.compute_proforma f L O = some res) :
    (0 < Engine.in_kind_pct L O → res.land_costs.transfer_tax = 0)
      ∧ (Engine.in_kind_pct L O = 0 →
          res.land_costs.transfer_tax
            = (pv L O "real_estate_transfer_tax_pct").toNum
              * res.land_costs.land_price_total)
      ∧ res.land_costs.brokerage_fee
          = (pv L O "brokerage_fee_pct").toNum * res.land_costs.land_price_total := by
  rw [Engine.compute_inv f L O res h]
  refine ⟨fun hpos => ?_, fun hz => ?_, rfl⟩
  · show Engine.transfer_tax L O = 0
    unfold Engine.transfer_tax
    rw [if_neg (by exact fun hc => absurd hc (ne_of_gt hpos))]
  · show Engine.transfer_tax L O = _
    unfold Engine.transfer_tax
    rw [if_pos hz]
    exact rfl

theorem C2_in_kind_tax_witness :
    (0 < Engine.in_kind_pct emptyLand [("in_kind_pct", Val.num (7/10))] →
        (Engine.computeCore irrFail emptyLand
          [("in_kind_pct", Val.num (7/10))]).land_costs.transfer_tax = 0)
      ∧ (Engine.in_kind_pct emptyLand [("in_kind_pct", Val.num (7/10))] = 0 →
          (Engine.computeCore irrFail emptyLand
            [("in_kind_pct", Val.num (7/10))]).land_costs.transfer_tax
            = (pv emptyLand [("in_kind_pct", Val.num (7/10))]
                "real_estate_transfer_tax_pct").toNum
              * (Engine.computeCore irrFail emptyLand
                  [("in_kind_pct", Val.num (7/10))]).land_costs.land_price_total)
      ∧ (Engine.computeCore irrFail emptyLand
          [("in_kind_pct", Val.num (7/10))]).land_costs.brokerage_fee
          = (pv emptyLand [("in_kind_pct", Val.num (7/10))] "brokerage_fee_pct").toNum
            * (Engine.computeCore irrFail emptyLand
                [("in_kind_pct", Val.num (7/10))]).land_costs.land_price_total :=
  C2_in_kind_tax irrFail emptyLand [("in_kind_pct", Val.num (7/10))]
    (Engine.computeCore irrFail emptyLand [("in_kind_pct", Val.num (7/10))])
    (Engine.compute_eq_some irrFail emptyLand [("in_kind_pct", Val.num (7/10))]
      (by decide))

namespace Engine

theorem compute_pos (f : List ℚ → Option ℚ) (L : Val) (O : Ov)
    (res : ProFormaResult) (h : compute_proforma f L O = some res) :
    1 ≤ n_years L O := by
  unfold compute_proforma at h
  split at h
  · assumption
  · exact absurd h (by simp)

theorem set_last_replicate (m : ℕ) (b : ℚ) :
    (List.replicate (m + 1) (0 : ℚ)).set m b = List.replicate m 0 ++ [b] := by
  induction m with
  | zero => rfl
  | succ k ih =>
    rw [List.replicate_succ]
    show (0 : ℚ) :: (List.replicate (k + 1) 0).set k b = _
    rw [ih, List.replicate_succ]
    rfl

theorem getD_zeros_append (s : ℚ) : ∀ (m j : ℕ), j < m →
    (List.replicate m (0 : ℚ) ++ [s]).getD j 1 = 0 := by
  intro m
  induction m with
  | zero => intro j hj; omega
  | succ k ih =>
    intro j hj
    cases j with
    | zero => rfl
    | succ i =>
      rw [List.replicate_succ]
      show (List.replicate k (0 : ℚ) ++ [s]).getD i 1 = 0
      exact ih i (by omega)

theorem getD_zeros_append_last (s : ℚ) : ∀ (m : ℕ),
    (List.replicate m (0 : ℚ) ++ [s]).getD m 1 = s := by
  intro m
  induction m with
  | zero => rfl
  | succ k ih =>
    rw [List.replicate_succ]
    show (List.replicate k (0 : ℚ) ++ [s]).getD k 1 = s
    exact ih

/-- Explicit form of the equity cash-flow vector for a positive fund
period. -/
theorem equity_cf_explicit (L : Val) (O : Ov) (m : ℕ) (hm : nn L O = m + 1) :
    equity_cf_for_irr L O
      = -(total_equity_invested L O)
          :: (List.replicate m 0 ++ [total_surplus L O]) := by
  unfold equity_cf_for_irr
  rw [hm]
  show ((0 :: List.replicate (m + 1) (0 : ℚ)).set 0
      (-(total_equity_invested L O))).set (m + 1) (total_surplus L O) = _
  show (-(total_equity_invested L O))
      :: (List.replicate (m + 1) (0 : ℚ)).set m (total_surplus L O) = _
  rw [set_last_replicate]

end Engine

/-- Overrides zeroing every flat fund fee: with an empty Land Object this
makes the total fund size, hence the total equity invested, exactly 0. -/
def zeroFeeOverrides : Ov := [
  ("custodian_fee_annual", Val.num 0), ("board_fee_annual", Val.num 0),
  ("sharia_certificate_fee", Val.num 0), ("sharia_board_fee_annual", Val.num 0),
  ("legal_counsel_fee", Val.num 0), ("auditor_fee_annual", Val.num 0),
  ("valuation_fee_quarterly", Val.num 0), ("spv_formation_fee", Val.num 0)]

/-- At the zero-fee degenerate input the total equity invested evaluates to
exactly 0 (all cost and fee components vanish). -/
theorem zeroFee_tei :
    Engine.total_equity_invested emptyLand zeroFeeOverrides = 0 := by
  have p01 : pv emptyLand zeroFeeOverrides "land_area_sqm" = Val.null := rfl
  have p02 : pv emptyLand zeroFeeOverrides "land_price_per_sqm" = Val.null := rfl
  have p03 : pv emptyLand zeroFeeOverrides "in_kind_pct" = Val.num 0 := rfl
  have p04 : pv emptyLand zeroFeeOverrides "brokerage_fee_pct" = Val.num (25/1000) := rfl
  have p05 : pv emptyLand zeroFeeOverrides "brokerage_vat_pct" = Val.num (15/100) := rfl
  have p06 : pv emptyLand zeroFeeOverrides "real_estate_transfer_tax_pct" = Val.num (5/100) := rfl
  have p07 : pv emptyLand zeroFeeOverrides "far" = Val.null := rfl
  have p08 : pv emptyLand zeroFeeOverrides "efficiency_ratio" = Val.num (85/100) := rfl
  have p09 : pv emptyLand zeroFeeOverrides "infrastructure_cost_per_sqm" = Val.num 500 := rfl
  have p10 : pv emptyLand zeroFeeOverrides "superstructure_cost_per_sqm" = Val.num 2500 := rfl
  have p11 : pv emptyLand zeroFeeOverrides "parking_area_sqm" = Val.num 0 := rfl
  have p12 : pv emptyLand zeroFeeOverrides "parking_cost_per_sqm" = Val.num 2000 := rfl
  have p13 : pv emptyLand zeroFeeOverrides "developer_fee_pct" = Val.num (10/100) := rfl
  have p14 : pv emptyLand zeroFeeOverrides "other_indirect_pct" = Val.num (6/100) := rfl
  have p15 : pv emptyLand zeroFeeOverrides "contingency_pct" = Val.num (5/100) := rfl
  have p16 : pv emptyLand zeroFeeOverrides "bank_ltv_pct" = Val.num (667/1000) := rfl
  have p17 : pv emptyLand zeroFeeOverrides "interest_rate_pct" = Val.num (8/100) := rfl
  have p18 : pv emptyLand zeroFeeOverrides "arrangement_fee_pct" = Val.num (2/100) := rfl
  have p19 : pv emptyLand zeroFeeOverrides "fund_period_years" = Val.num 3 := rfl
  have p20 : pv emptyLand zeroFeeOverrides "management_fee_pct" = Val.num (15/1000) := rfl
  have p21 : pv emptyLand zeroFeeOverrides "custodian_fee_annual" = Val.num 0 := rfl
  have p22 : pv emptyLand zeroFeeOverrides "board_fee_annual" = Val.num 0 := rfl
  have p23 : pv emptyLand zeroFeeOverrides "sharia_certificate_fee" = Val.num 0 := rfl
  have p24 : pv emptyLand zeroFeeOverrides "sharia_board_fee_annual" = Val.num 0 := rfl
  have p25 : pv emptyLand zeroFeeOverrides "legal_counsel_fee" = Val.num 0 := rfl
  have p26 : pv emptyLand zeroFeeOverrides "auditor_fee_annual" = Val.num 0 := rfl
  have p27 : pv emptyLand zeroFeeOverrides "valuation_fee_quarterly" = Val.num 0 := rfl
  have p28 : pv emptyLand zeroFeeOverrides "other_reserve_pct" = Val.num (5/10000) := rfl
  have p29 : pv emptyLand zeroFeeOverrides "spv_formation_fee" = Val.num 0 := rfl
  have p30 : pv emptyLand zeroFeeOverrides "structuring_fee_pct" = Val.num (1/100) := rfl
  have p31 : pv emptyLand zeroFeeOverrides "operator_fee_pct" = Val.num (15/10000) := rfl
  have p32 : pv emptyLand zeroFeeOverrides "land_phasing"
    = Val.list [Val.num 1, Val.num 0, Val.num 0] := rfl
  have p33 : pv emptyLand zeroFeeOverrides "direct_cost_phasing"
    = Val.list [Val.num (33/100), Val.num (45/100), Val.num (22/100)] := rfl
  have p34 : pv emptyLand zeroFeeOverrides "indirect_cost_phasing"
    = Val.list [Val.num (33/100), Val.num (45/100), Val.num (22/100)] := rfl
  have hnn : Engine.nn emptyLand zeroFeeOverrides = 3 := rfl
  norm_num [Engine.total_equity_invested, Engine.equity_amount, Engine.total_fund_size,
    Engine.total_land, Engine.land_price_total, Engine.land_area, Engine.land_ppmsq,
    Engine.in_kind_pct, Engine.in_kind_value, Engine.brokerage_fee, Engine.brokerage_vat,
    Engine.transfer_tax, Engine.total_construction, Engine.total_direct,
    Engine.total_indirect, Engine.infra_cost, Engine.super_cost, Engine.parking_cost,
    Engine.parking_area, Engine.gba, Engine.far_val, Engine.dev_fee,
    Engine.other_indirect, Engine.contingency, Engine.total_fund_fees,
    Engine.mgmt_fee_total, Engine.custodian_total, Engine.board_total,
    Engine.sharia_total, Engine.legal_total, Engine.auditor_total,
    Engine.valuation_total, Engine.reserve_total, Engine.spv_total,
    Engine.operator_total, Engine.structuring_total, Engine.est_equity,
    Engine.est_total_fund, Engine.pre_fees, Engine.total_cost_base,
    Engine.total_interest, Engine.interest_yearly, Engine.debt_outstanding,
    Engine.debt_drawdown, Engine.spend_share, Engine.total_cash_needs,
    Engine.cash_land_outflow, Engine.construction_yearly, Engine.land_ph,
    Engine.direct_ph, Engine.indirect_ph, Engine.phaseVec, Engine.padTrunc,
    Val.toNumList, Engine.bank_loan, Engine.arrangement_fee, hnn,
    vadd, vscale, cumsum, Val.toNum, Val.orElse,
    p01, p02, p03, p04, p05, p06, p07, p08, p09, p10, p11, p12, p13, p14, p15, p16,
    p17, p18, p19, p20, p21, p22, p23, p24, p25, p26, p27, p28, p29, p30, p31, p32,
    p33, p34]

/-- C3 counterexample: the claim asserts index 0 of the equity cash-flow
vector is negative for every input, but with an empty Land Object and all
flat fees overridden to 0 the total equity invested is 0, so index 0 is 0,
not negative. -/
theorem C3_equity_cf_counterexample :
    Engine.compute_proforma irrFail emptyLand zeroFeeOverrides
        = some (Engine.computeCore irrFail emptyLand zeroFeeOverrides)
      ∧ (Engine.computeCore irrFail emptyLand
          zeroFeeOverrides).cash_flows.equity_cf_for_irr.getD 0 1 = 0
      ∧ ¬ ((Engine.computeCore irrFail emptyLand
            zeroFeeOverrides).cash_flows.equity_cf_for_irr.getD 0 1 < 0) := by
  have hcf : (Engine.computeCore irrFail emptyLand
      zeroFeeOverrides).cash_flows.equity_cf_for_irr.getD 0 1 = 0 := by
    show (Engine.equity_cf_for_irr emptyLand zeroFeeOverrides).getD 0 1 = 0
    rw [Engine.equity_cf_explicit emptyLand zeroFeeOverrides 2 rfl]
    show -(Engine.total_equity_invested emptyLand zeroFeeOverrides) = 0
    rw [zeroFee_tei]
    norm_num
  exact ⟨Engine.compute_eq_some irrFail emptyLand zeroFeeOverrides (by decide),
    hcf, by rw [hcf]; norm_num⟩

/-- C3 (amended).  For every input accepted by `compute_proforma` with
fund period `n`, the equity cash-flow vector has length `n + 1`, every
interior entry (indices 1..n-1) is exactly 0, index 0 equals
`-(equity_amount + in_kind_value)` (so it is negative exactly when the
total equity invested is positive, which the original claim overstated as
always), and index `n` is the terminal surplus
`(equity_amount + in_kind_value) + bank_loan + gross_revenue -
total_outflows_sum - bank_loan`. -/
theorem C3_equity_cf_shape (f : List ℚ → Option ℚ) (L : Val) (O : Ov)
    (res : ProFormaResult) (h : Engine.compute_proforma f L O = some res) :
    res.cash_flows.equity_cf_for_irr.length = Engine.nn L O + 1
      ∧ (∀ i, 1 ≤ i → i ≤ Engine.nn L O - 1 →
          res.cash_flows.equity_cf_for_irr.getD i 1 = 0)
      ∧ res.cash_flows.equity_cf_for_irr.getD 0 1
          = -(res.fund_size.equity_amount + res.fund_size.in_kind_contribution)
      ∧ res.cash_flows.equity_cf_for_irr.getD (Engine.nn L O) 1
          = (res.fund_size.equity_amount + res.fund_size.in_kind_contribution)
            + res.fund_size.bank_loan + res.revenue.gross_revenue
            - res.cash_flows.outflows_total.sum - res.fund_size.bank_loan := by
  have hn : 1 ≤ Engine.n_years L O := Engine.compute_pos f L O res h
  obtain ⟨m, hm⟩ : ∃ m, Engine.nn L O = m + 1 := by
    refine ⟨Engine.nn L O - 1, ?_⟩
    have : 1 ≤ Engine.nn L O := by
      unfold Engine.nn
      omega
    omega
  rw [Engine.compute_inv f L O res h]
  refine ⟨?_, ?_, ?_, ?_⟩
  · show (Engine.equity_cf_for_irr L O).length = Engine.nn L O + 1
    rw [Engine.equity_cf_explicit L O m hm, hm]
    simp
  · intro i h1 h2
    show (Engine.equity_cf_for_irr L O).getD i 1 = 0
    rw [Engine.equity_cf_explicit L O m hm]
    obtain ⟨j, rfl⟩ : ∃ j, i = j + 1 := ⟨i - 1, by omega⟩
    show (List.replicate m (0 : ℚ) ++ [Engine.total_surplus L O]).getD j 1 = 0
    exact Engine.getD_zeros_append _ m j (by omega)
  · show (Engine.equity_cf_for_irr L O).getD 0 1 = _
    rw [Engine.equity_cf_explicit L O m hm]
    rfl
  · show (Engine.equity_cf_for_irr L O).getD (Engine.nn L O) 1 = _
    rw [Engine.equity_cf_explicit L O m hm, hm]
    show (List.replicate m (0 : ℚ) ++ [Engine.total_surplus L O]).getD m 1 = _
    rw [Engine.getD_zeros_append_last]
    rfl

theorem C3_equity_cf_shape_witness :
    (Engine.computeCore irrFail emptyLand []).cash_flows.equity_cf_for_irr.length
        = Engine.nn emptyLand [] + 1
      ∧ (Engine.computeCore irrFail emptyLand []).cash_flows.equity_cf_for_irr.getD 2 1
        = 0 :=
  ⟨(C3_equity_cf_shape irrFail emptyLand [] (Engine.computeCore irrFail emptyLand [])
      (Engine.compute_eq_some irrFail emptyLand [] (by decide))).1,
    (C3_equity_cf_shape irrFail emptyLand [] (Engine.computeCore irrFail emptyLand [])
      (Engine.compute_eq_some irrFail emptyLand [] (by decide))).2.1 2 (by decide)
      (by decide)⟩

/-- C4.  When the IRR root-finder fails on the equity cash-flow vector (the
wrapped `npf.irr` call produces no value; e.g. all cash flows of the same
sign admit no real root), `compute_proforma` still returns, with
`kpis.irr = null`, and no exception escapes the IRR computation: the result
exists no matter what the solver does (second conjunct, for an arbitrary
solver `g`). -/
theorem C4_irr_failure_null (f g : List ℚ → Option ℚ) (L : Val) (O : Ov)
    (res : ProFormaResult) (h : Engine.compute_proforma f L O = some res)
    (hf : f (Engine.equity_cf_for_irr L O) = none) :
    res.kpis.irr = none ∧ (Engine.compute_proforma g L O).isSome = true := by
  constructor
  · rw [Engine.compute_inv f L O res h]
    exact hf
  · rw [Engine.compute_eq_some g L O (Engine.compute_pos f L O res h)]
    rfl

theorem C4_irr_failure_null_witness :
    (Engine.computeCore irrFail emptyLand []).kpis.irr = none
      ∧ (Engine.compute_proforma irrFail emptyLand []).isSome = true :=
  C4_irr_failure_null irrFail irrFail emptyLand []
    (Engine.computeCore irrFail emptyLand [])
    (Engine.compute_eq_some irrFail emptyLand [] (by decide)) rfl

namespace Engine

theorem sum_map_div (l : List ℚ) (s : ℚ) :
    (l.map (fun x => x / s)).sum = l.sum / s := by
  induction l with
  | nil => simp
  | cons a t ih => simp [ih, add_div]

end Engine

/-- C5 counterexample: `[0, 0, 0, 1]` is a non-zero phasing vector, but
after truncation to the default 3-year fund period its sum is 0, so it is
left unnormalized and the weights sum to 0, not 1 (and certainly not
within 1e-9 of 1). -/
theorem C5_phasing_counterexample :
    Engine.land_ph emptyLand
        [("land_phasing", Val.list [Val.num 0, Val.num 0, Val.num 0, Val.num 1])]
        = [0, 0, 0]
      ∧ ¬ (|(Engine.land_ph emptyLand
            [("land_phasing",
              Val.list [Val.num 0, Val.num 0, Val.num 0, Val.num 1])]).sum - 1|
          ≤ 1 / 1000000000) := by
  have hph : pv emptyLand
      [("land_phasing", Val.list [Val.num 0, Val.num 0, Val.num 0, Val.num 1])]
      "land_phasing" = Val.list [Val.num 0, Val.num 0, Val.num 0, Val.num 1] := rfl
  have hnn : Engine.nn emptyLand
      [("land_phasing", Val.list [Val.num 0, Val.num 0, Val.num 0, Val.num 1])]
      = 3 := rfl
  have h1 : Engine.land_ph emptyLand
      [("land_phasing", Val.list [Val.num 0, Val.num 0, Val.num 0, Val.num 1])]
      = [0, 0, 0] := by
    norm_num [Engine.land_ph, hnn, hph, Engine.phaseVec, Engine.padTrunc,
      Val.toNumList, Val.toNum]
  refine ⟨h1, ?_⟩
  rw [h1]
  norm_num

/-- C5 (amended).  After padding/truncation to the fund-period length, a
phasing vector whose (padded/truncated) entries have positive sum is
normalized to sum exactly 1 (hence within 1e-9); when that sum is not
positive — including the case of a non-zero input vector whose non-zero
entries are all truncated away, which the original claim overlooked — the
padded/truncated vector is left unnormalized, so the all-zero vector stays
all-zero. -/
theorem C5_phasing_normalization (n : ℕ) (v : List ℚ) :
    (0 < (Engine.padTrunc n v).sum → (Engine.phaseVec n v).sum = 1)
      ∧ (¬ 0 < (Engine.padTrunc n v).sum →
          Engine.phaseVec n v = Engine.padTrunc n v) := by
  constructor
  · intro h
    show (if (Engine.padTrunc n v).sum > 0 then
        (Engine.padTrunc n v).map (fun x => x / (Engine.padTrunc n v).sum)
      else Engine.padTrunc n v).sum = 1
    rw [if_pos h, Engine.sum_map_div]
    exact div_self (ne_of_gt h)
  · intro h
    show (if (Engine.padTrunc n v).sum > 0 then
        (Engine.padTrunc n v).map (fun x => x / (Engine.padTrunc n v).sum)
      else Engine.padTrunc n v) = Engine.padTrunc n v
    rw [if_neg h]

theorem C5_phasing_normalization_witness :
    (Engine.phaseVec 3 [1, 2]).sum = 1 :=
  (C5_phasing_normalization 3 [1, 2]).1 (by norm_num [Engine.padTrunc])

/-- The override stage of `_resolve` misses: the key is absent from the
Override Map, or present with a null value. -/
def overrideMiss (key : String) (ov : Ov) : Prop :=
  ov.find? (fun kv => kv.1 == key) = none
    ∨ ∃ p, ov.find? (fun kv => kv.1 == key) = some p ∧ p.2.isNull = true

/-- The auto stage of `_resolve` misses: the key has no auto-mapping, or
the path walk into the Land Object yields null (in particular when an
intermediate path component is missing or not a dict). -/
def autoMiss (key : String) (land : Val) : Prop :=
  autoMap.find? (fun kv => kv.1 == key) = none
    ∨ ∃ pm, autoMap.find? (fun kv => kv.1 == key) = some pm
        ∧ (walkPath land pm.2).isNull = true

/-- C6.  Resolution priority of `_resolve`: a present, non-null override
wins (source `user`, in particular for keys that also have an
auto-mapping); otherwise a non-null auto-mapped Land Object value (source
`auto`, the traversal tolerating missing path components by yielding
null); otherwise the static default table (source `default`); otherwise
null with source `missing`. -/
theorem C6_resolution_priority (key : String) (L : Val) (O : Ov) :
    (∀ p, O.find? (fun kv => kv.1 == key) = some p → p.2.isNull = false →
        (autoMap.find? (fun kv => kv.1 == key)).isSome = true →
        resolveParam key L O = (p.2, "user"))
      ∧ (overrideMiss key O →
          ∀ pm, autoMap.find? (fun kv => kv.1 == key) = some pm →
            (walkPath L pm.2).isNull = false →
            resolveParam key L O = (walkPath L pm.2, "auto"))
      ∧ (overrideMiss key O → autoMiss key L →
          ∀ d, DEFAULTS.find? (fun kv => kv.1 == key) = some d →
            resolveParam key L O = (d.2, "default"))
      ∧ (overrideMiss key O → autoMiss key L →
          DEFAULTS.find? (fun kv => kv.1 == key) = none →
          resolveParam key L O = (Val.null, "missing")) := by
  have hov : ∀ h : overrideMiss key O, resolveParam key L O = resolveAuto key L := by
    intro h
    rcases h with h | ⟨p, hp, hnull⟩
    · unfold resolveParam
      rw [h]
    · unfold resolveParam
      rw [hp]
      simp [hnull]
  refine ⟨?_, ?_, ?_, ?_⟩
  · intro p hp hnull _
    unfold resolveParam
    rw [hp]
    simp [hnull]
  · intro h pm hpm hwalk
    rw [hov h]
    unfold resolveAuto
    rw [hpm]
    simp [hwalk]
  · intro h ha d hd
    rw [hov h]
    unfold resolveAuto
    rcases ha with ha | ⟨pm, hpm, hwalk⟩
    · rw [ha, hd]
    · rw [hpm, hd]
      simp [hwalk]
  · intro h ha hd
    rw [hov h]
    unfold resolveAuto
    rcases ha with ha | ⟨pm, hpm, hwalk⟩
    · rw [ha, hd]
    · rw [hpm, hd]
      simp [hwalk]

theorem C6_resolution_priority_witness :
    resolveParam "far" emptyLand [("far", Val.num 2)] = (Val.num 2, "user") :=
  (C6_resolution_priority "far" emptyLand [("far", Val.num 2)]).1
    ("far", Val.num 2) rfl rfl rfl

/-- C7.  Whenever the sweep runs, `sensitivity.irr_matrix` is a 5×5 matrix
(5 rows of 5 cells); each cell (i, j) holds exactly the solver's output on
that cell's adjusted equity cash-flow vector, so a failing cell is recorded
as null in place, never omitted, and no cell's failure can abort the sweep
or the overall computation (the statement holds for an arbitrary solver
`f`, including ones failing on every cell). -/
theorem C7_sensitivity_shape (f : List ℚ → Option ℚ) (L : Val) (O : Ov)
    (res : ProFormaResult) (m : Sensitivity)
    (h : Engine.compute_proforma f L O = some res)
    (hm : res.sensitivity = some m) :
    m.irr_matrix.length = 5
      ∧ (∀ row ∈ m.irr_matrix, row.length = 5)
      ∧ (∀ i, i < 5 → ∀ j, j < 5 →
          (m.irr_matrix.getD i []).getD j (some 0)
            = Engine.sensitivityCell L O f ((Engine.sale_range L O).getD i 0)
                (Engine.cost_mult.getD j 0)) := by
  rw [Engine.compute_inv f L O res h] at hm
  have hmm : m.irr_matrix = Engine.sensitivity_irr L O f := by
    revert hm
    show (if dictHas O "_skip_sensitivity" = true then none else some
        { sale_price_range := Engine.sale_range L O,
          construction_cost_range :=
            Engine.cost_mult.map (fun c => Engine.base_cost L O * c),
          irr_matrix := Engine.sensitivity_irr L O f : Sensitivity }) = some m →
      m.irr_matrix = Engine.sensitivity_irr L O f
    intro hm
    split at hm
    · exact absurd hm (by simp)
    · rw [← Option.some.inj hm]
  rw [hmm]
  refine ⟨?_, ?_, ?_⟩
  · simp only [Engine.sensitivity_irr, List.length_map, Engine.sale_range,
      linspace5, List.length_range]
    decide
  · intro row hrow
    simp only [Engine.sensitivity_irr, List.mem_map] at hrow
    obtain ⟨sp, -, hsp⟩ := hrow
    rw [← hsp]
    simp only [List.length_map, Engine.cost_mult, linspace5, List.length_range]
    decide
  · intro i hi j hj
    interval_cases i <;> interval_cases j <;> rfl

theorem C7_sensitivity_shape_witness :
    (Engine.sensitivity_irr emptyLand [] irrFail).length = 5
      ∧ ((Engine.sensitivity_irr emptyLand [] irrFail).getD 0 []).getD 0 (some 0)
        = Engine.sensitivityCell emptyLand [] irrFail
            ((Engine.sale_range emptyLand []).getD 0 0) (Engine.cost_mult.getD 0 0) :=
  ⟨(C7_sensitivity_shape irrFail emptyLand []
      (Engine.computeCore irrFail emptyLand [])
      { sale_price_range := Engine.sale_range emptyLand [],
        construction_cost_range :=
          Engine.cost_mult.map (fun c => Engine.base_cost emptyLand [] * c),
        irr_matrix := Engine.sensitivity_irr emptyLand [] irrFail }
      (Engine.compute_eq_some irrFail emptyLand [] (by decide)) rfl).1,
    (C7_sensitivity_shape irrFail emptyLand []
      (Engine.computeCore irrFail emptyLand [])
      { sale_price_range := Engine.sale_range emptyLand [],
        construction_cost_range :=
          Engine.cost_mult.map (fun c => Engine.base_cost emptyLand [] * c),
        irr_matrix := Engine.sensitivity_irr emptyLand [] irrFail }
      (Engine.compute_eq_some irrFail emptyLand [] (by decide)) rfl).2.2 0
      (by decide) 0 (by decide)⟩

namespace Engine

/-- The auto/default/missing fallback can only yield those three
sources. -/
theorem resolveAuto_source_cases (key : String) (L : Val) :
    (resolveAuto key L).2 = "auto" ∨ (resolveAuto key L).2 = "default"
      ∨ (resolveAuto key L).2 = "missing" := by
  unfold resolveAuto
  rcases ha : autoMap.find? (fun kv => kv.1 == key) with _ | pm
  · rcases hd : DEFAULTS.find? (fun dv => dv.1 == key) with _ | d <;> simp [ha, hd]
  · by_cases hw : (walkPath L pm.2).isNull = true
    · rcases hd : DEFAULTS.find? (fun dv => dv.1 == key) with _ | d <;>
        simp [ha, hd, hw]
    · simp [ha, hw]

/-- Every resolved parameter's source is one of the four categories. -/
theorem pSource_mem_cases (key : String) (L : Val) (O : Ov) :
    pSource L O key = "user" ∨ pSource L O key = "auto"
      ∨ pSource L O key = "default" ∨ pSource L O key = "missing" := by
  have hr := resolveAuto_source_cases key L
  unfold pSource resolveParam
  rcases hov : O.find? (fun kv => kv.1 == key) with _ | p
  · simp only [hov]
    tauto
  · by_cases hn : p.2.isNull = true
    · simp only [hov, hn, if_true]
      tauto
    · simp [hov, hn]

/-- Filter counts over the four exclusive source categories partition the
list. -/
theorem filter_counts_partition (l : List String)
    (hl : ∀ s ∈ l, s = "user" ∨ s = "auto" ∨ s = "default" ∨ s = "missing") :
    (l.filter (fun s => s == "auto")).length + (l.filter (fun s => s == "user")).length
      + (l.filter (fun s => s == "default")).length
      + (l.filter (fun s => s == "missing")).length = l.length := by
  induction l with
  | nil => rfl
  | cons a t ih =>
    have ha := hl a (List.mem_cons_self a t)
    have ih2 := ih (fun s hs => hl s (List.mem_cons_of_mem a hs))
    rcases ha with h | h | h | h <;> subst h <;>
      simp [List.filter_cons, List.length_cons,
        (show ("user" : String) ≠ "auto" from by decide),
        (show ("user" : String) ≠ "default" from by decide),
        (show ("user" : String) ≠ "missing" from by decide),
        (show ("auto" : String) ≠ "user" from by decide),
        (show ("auto" : String) ≠ "default" from by decide),
        (show ("auto" : String) ≠ "missing" from by decide),
        (show ("default" : String) ≠ "user" from by decide),
        (show ("default" : String) ≠ "auto" from by decide),
        (show ("default" : String) ≠ "missing" from by decide),
        (show ("missing" : String) ≠ "user" from by decide),
        (show ("missing" : String) ≠ "auto" from by decide),
        (show ("missing" : String) ≠ "default" from by decide)] <;> omega

end Engine

/-- A Land Object whose only field is `area_sqm`: exactly one parameter
resolves with source `auto`. -/
def autoAreaLand : Val := Val.obj [("area_sqm", Val.num 1000)]

/-- The four phasing-vector parameter keys. -/
def phasingKeys : List String :=
  ["land_phasing", "direct_cost_phasing", "indirect_cost_phasing", "revenue_phasing"]

/-- Follows the spec's words for C8 (refutation target): the data-health
breakdown as the claim describes it, over the resolved sources of the
non-phasing parameter keys only. -/
def specHealthSources (L : Val) (O : Ov) : List String :=
  (paramKeys.filter (fun k => !(phasingKeys.contains k))).map
    (fun k => pSource L O k)

/-- C8 counterexample: the code's `data_health` counts all 44 parameters,
phasing keys included, while the claim says phasing keys are excluded
(40 keys); and the reported `confidence_pct` is rounded to one decimal
(23/10) rather than the exact `(user + auto)/total × 100` of the claim
(which would be 5/2 over the claim's 40 counted keys, or 25/11 over 44). -/
theorem C8_data_health_counterexample :
    Engine.compute_proforma irrFail autoAreaLand []
        = some (Engine.computeCore irrFail autoAreaLand [])
      ∧ (Engine.computeCore irrFail autoAreaLand []).data_health.total_params = 44
      ∧ (specHealthSources autoAreaLand []).length = 40
      ∧ ((specHealthSources autoAreaLand []).filter (fun s => s == "auto")).length = 1
      ∧ ((specHealthSources autoAreaLand []).filter (fun s => s == "user")).length = 0
      ∧ (Engine.computeCore irrFail autoAreaLand []).data_health.confidence_pct
          = 23/10
      ∧ ¬ ((23 : ℚ)/10 = ((1 : ℚ) + 0) / 40 * 100) := by
  refine ⟨Engine.compute_eq_some irrFail autoAreaLand [] (by decide),
    rfl, rfl, rfl, rfl, ?_, by norm_num⟩
  show Engine.round1 (Engine.confidence autoAreaLand []) = 23/10
  have ha : Engine.auto_count autoAreaLand [] = 1 := rfl
  have hu : Engine.user_count autoAreaLand [] = 0 := rfl
  have ht : Engine.total_params autoAreaLand [] = 44 := rfl
  unfold Engine.confidence Engine.round1
  rw [ha, hu, ht, if_pos (by norm_num : (0:ℕ) < 44), round_eq]
  norm_num

/-- C8 (amended).  The `data_health` section counts the resolved
parameters of ALL 44 keys (the four phasing-vector keys included — the
original claim wrongly said they are excluded; only the `inputs_used`
echo excludes them), the four source counts partition the total,
`confidence_pct` is `(user + auto)/total × 100` rounded to one decimal,
and `missing_fields` lists exactly the keys whose source is `missing`. -/
theorem C8_data_health (f : List ℚ → Option ℚ) (L : Val) (O : Ov)
    (res : ProFormaResult) (h : Engine.compute_proforma f L O = some res) :
    res.data_health.auto
        = ((paramKeys.map (fun k => pSource L O k)).filter
            (fun s => s == "auto")).length
      ∧ res.data_health.user
        = ((paramKeys.map (fun k => pSource L O k)).filter
            (fun s => s == "user")).length
      ∧ res.data_health.total_params = paramKeys.length
      ∧ res.data_health.auto + res.data_health.user + res.data_health.default
          + res.data_health.missing = res.data_health.total_params
      ∧ res.data_health.confidence_pct
        = Engine.round1 (((res.data_health.auto : ℚ) + (res.data_health.user : ℚ))
            / (res.data_health.total_params : ℚ) * 100)
      ∧ (∀ k, k ∈ res.data_health.missing_fields ↔
          (k ∈ paramKeys ∧ pSource L O k = "missing")) := by
  rw [Engine.compute_inv f L O res h]
  refine ⟨rfl, rfl, ?_, ?_, ?_, ?_⟩
  · show Engine.total_params L O = paramKeys.length
    simp [Engine.total_params, Engine.sourcesOf]
  · show Engine.auto_count L O + Engine.user_count L O + Engine.default_count L O
        + Engine.missing_count L O = Engine.total_params L O
    unfold Engine.auto_count Engine.user_count Engine.default_count
      Engine.missing_count Engine.total_params
    refine Engine.filter_counts_partition (Engine.sourcesOf L O) ?_
    intro s hs
    simp only [Engine.sourcesOf, List.mem_map] at hs
    obtain ⟨k, -, rfl⟩ := hs
    exact Engine.pSource_mem_cases k L O
  · show Engine.round1 (Engine.confidence L O) = _
    have ht : Engine.total_params L O = 44 := by
      simp [Engine.total_params, Engine.sourcesOf, paramKeys]
    unfold Engine.confidence
    rw [if_pos (by rw [ht]; norm_num)]
    rfl
  · intro k
    show k ∈ Engine.missing_fields L O ↔ _
    simp [Engine.missing_fields, List.mem_filter]

theorem C8_data_health_witness :
    (Engine.computeCore irrFail emptyLand []).data_health.total_params
        = paramKeys.length
      ∧ ("far" ∈ (Engine.computeCore irrFail emptyLand []).data_health.missing_fields
          ↔ ("far" ∈ paramKeys ∧ pSource emptyLand [] "far" = "missing")) :=
  ⟨(C8_data_health irrFail emptyLand [] (Engine.computeCore irrFail emptyLand [])
      (Engine.compute_eq_some irrFail emptyLand [] (by decide))).2.2.1,
    (C8_data_health irrFail emptyLand [] (Engine.computeCore irrFail emptyLand [])
      (Engine.compute_eq_some irrFail emptyLand [] (by decide))).2.2.2.2.2 "far"⟩

/-- C9 counterexample: the claim promises a complete ProFormaResult with
no exception for EVERY Land Object without `regulations` and Override Map
without `far`/`max_floors` entries, but overriding `fund_period_years` to
0 satisfies those hypotheses and still crashes the engine (in the source,
an `IndexError` at `debt_repayment[-1]` on an empty array; modelled as a
`none` result). -/
theorem C9_zero_period_counterexample :
    ([] : List (String × Val)).find? (fun kv => kv.1 == "regulations") = none
      ∧ ([("fund_period_years", Val.num 0)] : Ov).find?
          (fun kv => kv.1 == "far") = none
      ∧ ([("fund_period_years", Val.num 0)] : Ov).find?
          (fun kv => kv.1 == "max_floors") = none
      ∧ Engine.compute_proforma irrFail (Val.obj [])
          [("fund_period_years", Val.num 0)] = none := by
  refine ⟨rfl, rfl, rfl, ?_⟩
  unfold Engine.compute_proforma
  rw [if_neg (by decide)]

/-- C9 (amended).  Provided the resolved fund period is at least 1 year
(outside that, the engine raises regardless of the Land Object), a Land
Object with no `regulations` field and no overrides for
`far`/`max_floors` still yields a complete ProFormaResult (no exception),
with the unresolved `far` falling back to the hard-coded default 1.0 in
the construction arithmetic, both `far` and `max_floors` listed in
`data_health.missing_fields`, and a null resolved land price treated as 0
by the downstream arithmetic. -/
theorem C9_missing_field_degradation (f : List ℚ → Option ℚ)
    (lo : List (String × Val)) (O : Ov)
    (hreg : lo.find? (fun kv => kv.1 == "regulations") = none)
    (hfar : O.find? (fun kv => kv.1 == "far") = none)
    (hmf : O.find? (fun kv => kv.1 == "max_floors") = none)
    (hn : 1 ≤ Engine.n_years (Val.obj lo) O) :
    Engine.compute_proforma f (Val.obj lo) O
        = some (Engine.computeCore f (Val.obj lo) O)
      ∧ Engine.far_val (Val.obj lo) O = 1
      ∧ (Engine.computeCore f (Val.obj lo) O).construction_costs.gba_sqm
          = Engine.land_area (Val.obj lo) O * 1
      ∧ "far" ∈ (Engine.computeCore f (Val.obj lo) O).data_health.missing_fields
      ∧ "max_floors"
          ∈ (Engine.computeCore f (Val.obj lo) O).data_health.missing_fields
      ∧ (O.find? (fun kv => kv.1 == "land_price_per_sqm") = none →
          Engine.land_ppmsq (Val.obj lo) O = 0) := by
  have hwreg : dictGet lo "regulations" = Val.null := by
    unfold dictGet
    rw [hreg]
  have hwfar : walkPath (Val.obj lo) ["regulations", "far"] = Val.null := by
    show walkPath (dictGet lo "regulations") ["far"] = Val.null
    rw [hwreg]
    rfl
  have hwmf : walkPath (Val.obj lo) ["regulations", "max_floors"] = Val.null := by
    show walkPath (dictGet lo "regulations") ["max_floors"] = Val.null
    rw [hwreg]
    rfl
  have rfar : resolveParam "far" (Val.obj lo) O = (Val.null, "missing") := by
    unfold resolveParam
    rw [hfar]
    show resolveAuto "far" (Val.obj lo) = (Val.null, "missing")
    simp [resolveAuto, hwfar, Val.isNull,
      (show autoMap.find? (fun kv => kv.1 == "far")
        = some ("far", ["regulations", "far"]) from rfl),
      (show DEFAULTS.find? (fun dv => dv.1 == "far") = none from rfl)]
  have rmf : resolveParam "max_floors" (Val.obj lo) O = (Val.null, "missing") := by
    unfold resolveParam
    rw [hmf]
    show resolveAuto "max_floors" (Val.obj lo) = (Val.null, "missing")
    simp [resolveAuto, hwmf, Val.isNull,
      (show autoMap.find? (fun kv => kv.1 == "max_floors")
        = some ("max_floors", ["regulations", "max_floors"]) from rfl),
      (show DEFAULTS.find? (fun dv => dv.1 == "max_floors") = none from rfl)]
  have hfv : Engine.far_val (Val.obj lo) O = 1 := by
    unfold Engine.far_val pv
    rw [rfar]
    rfl
  refine ⟨Engine.compute_eq_some f (Val.obj lo) O hn, hfv, ?_, ?_, ?_, ?_⟩
  · show Engine.gba (Val.obj lo) O = Engine.land_area (Val.obj lo) O * 1
    unfold Engine.gba
    rw [hfv]
  · show "far" ∈ Engine.missing_fields (Val.obj lo) O
    unfold Engine.missing_fields
    refine List.mem_filter.mpr ⟨by decide, ?_⟩
    unfold pSource
    rw [rfar]
    rfl
  · show "max_floors" ∈ Engine.missing_fields (Val.obj lo) O
    unfold Engine.missing_fields
    refine List.mem_filter.mpr ⟨by decide, ?_⟩
    unfold pSource
    rw [rmf]
    rfl
  · intro hlp
    unfold Engine.land_ppmsq pv resolveParam
    rw [hlp]
    rfl

theorem C9_missing_field_degradation_witness :
    Engine.far_val (Val.obj []) [] = 1
      ∧ "far" ∈ (Engine.computeCore irrFail (Val.obj [])
          []).data_health.missing_fields :=
  ⟨(C9_missing_field_degradation irrFail [] [] rfl rfl rfl (by decide)).2.1,
    (C9_missing_field_degradation irrFail [] [] rfl rfl rfl (by decide)).2.2.2.1⟩

/-- C10.  The presence of the key `_skip_sensitivity` in the Override Map
(whatever its value, null included — only presence is tested) makes
`compute_proforma` return `sensitivity = null` with no sweep; when the key
is absent the sweep always runs, and whenever the resolved sale price per
sqm is not strictly positive the base sale price is 10000, making the
sale-price axis `[8000, 9000, 10000, 11000, 12000]`. -/
theorem C10_skip_sensitivity (f : List ℚ → Option ℚ) (L : Val) (O : Ov)
    (res : ProFormaResult) (h : Engine.compute_proforma f L O = some res) :
    (dictHas O "_skip_sensitivity" = true → res.sensitivity = none)
      ∧ (dictHas O "_skip_sensitivity" = false →
          res.sensitivity = some
            { sale_price_range := Engine.sale_range L O,
              construction_cost_range :=
                Engine.cost_mult.map (fun c => Engine.base_cost L O * c),
              irr_matrix := Engine.sensitivity_irr L O f }
          ∧ (¬ 0 < Engine.sale_ppmsq L O →
              Engine.sale_range L O = [8000, 9000, 10000, 11000, 12000])) := by
  rw [Engine.compute_inv f L O res h]
  constructor
  · intro hskip
    show (if dictHas O "_skip_sensitivity" = true then none
        else some
          { sale_price_range := Engine.sale_range L O,
            construction_cost_range :=
              Engine.cost_mult.map (fun c => Engine.base_cost L O * c),
            irr_matrix := Engine.sensitivity_irr L O f : Sensitivity }) = none
    rw [if_pos hskip]
  · intro hns
    constructor
    · show (if dictHas O "_skip_sensitivity" = true then none
          else some
            { sale_price_range := Engine.sale_range L O,
              construction_cost_range :=
                Engine.cost_mult.map (fun c => Engine.base_cost L O * c),
              irr_matrix := Engine.sensitivity_irr L O f : Sensitivity }) = some _
      rw [if_neg (by simp [hns])]
    · intro hsp
      unfold Engine.sale_range Engine.base_sale
      rw [if_neg hsp]
      norm_num [linspace5, List.range_succ]

theorem C10_skip_sensitivity_witness :
    (Engine.computeCore irrFail emptyLand
        [("_skip_sensitivity", Val.null)]).sensitivity = none :=
  (C10_skip_sensitivity irrFail emptyLand [("_skip_sensitivity", Val.null)]
    (Engine.computeCore irrFail emptyLand [("_skip_sensitivity", Val.null)])
    (Engine.compute_eq_some irrFail emptyLand [("_skip_sensitivity", Val.null)]
      (by decide))).1 rfl
